import Mathlib

/-!
Verification development for `app/repositories/lightning.py` of blitz_api:
the lightning notification-coordination layer.

Modelling conventions (shallow embedding of the asyncio code):

* The event loop is cooperative and single-threaded.  `loop.create_task(coro)`
  only queues the coroutine: it starts running on a later scheduler turn, and
  every `await` in a body is a suspension point at which other ready tasks may
  run.  For the forward flush this is collapsed: `_fwd_update_scheduled` has a
  single producer (the forward listener itself), which always suspends on the
  next stream element before anything else can race the freshly created
  `_schedule_fwd_update` task, so flag-setting (line 241) is merged into the
  arrival transition, and a pending flush is an entry of `fwd_pending` holding
  its sleep-expiry time.
* The wallet-balance refresh must NOT be collapsed this way: the flag is set
  inside the spawned `_perform_update` (line 271) on a later turn, and there
  are four independent mark-dirty producers (lines 117, 130, 229, 250), two of
  which can be ready in the same scheduler batch.  Each live `_perform_update`
  coroutine is therefore modelled as a `BalTask` phase (created / sleeping /
  fetching / publishing) in `bal_tasks`, advanced one await-delimited segment
  at a time by `balTaskAdvance`.
* Backend fetches (`get_ln_info_impl`, `get_wallet_balance_impl`,
  `get_fee_revenue_impl`) are oracle inputs: each run is parameterised by the
  list of values the backend returns.
* Times and intervals are rationals (Python floats are used only for sleeps
  and comparisons here, never for arithmetic whose rounding could matter).
* `broadcast_sse_msg` is fire-and-forget; a run records the history of
  published values per SSE channel.
-/

namespace Blitz

/-- Modelled from the spec: `LnInfo` lives in `app.models.lightning`, which is
not among the analysed sources.  Spec section 3 describes it as an immutable
node-status snapshot (identity, sync state, peer/channel counts, ...) with
structural equality. -/
structure LnInfo where
  implementation : String
  version : String
  identity_pubkey : String
  num_peers : Nat
  block_height : Nat
  synced_to_chain : Bool
  num_active_channels : Nat
  identity_uri : String
  deriving DecidableEq, Repr

/-- Modelled from the spec: `LightningInfoLite` is a derived "lite" projection,
a strict subset of the full snapshot's fields (spec sections 3 and glossary). -/
structure LightningInfoLite where
  implementation : String
  version : String
  num_peers : Nat
  block_height : Nat
  synced_to_chain : Bool
  deriving DecidableEq, Repr

/-- Modelled from the spec: the lite projection is a pure, deterministic
function of the full snapshot (`LightningInfoLite.from_lninfo`). -/
def LightningInfoLite.from_lninfo (i : LnInfo) : LightningInfoLite :=
  ⟨i.implementation, i.version, i.num_peers, i.block_height, i.synced_to_chain⟩

/-- Modelled from the spec: `WalletBalance` is an immutable value
(confirmed/unconfirmed/total balances) with structural equality. -/
structure WalletBalance where
  confirmed_balance : Int
  unconfirmed_balance : Int
  total_balance : Int
  deriving DecidableEq, Repr

/-- Modelled from the spec: an `Invoice` event value; the relay treats it as
opaque, so only structural equality matters here. -/
structure Invoice where
  value_msat : Int
  memo : String
  settled : Bool
  deriving DecidableEq, Repr

/-- Modelled from the spec: a `ForwardEvent` value describing one completed
routing operation; the aggregator buffers `i.dict()` opaquely. -/
structure ForwardEvent where
  chan_id_in : Nat
  chan_id_out : Nat
  fee_msat : Int
  deriving DecidableEq, Repr

/-! ## The change-gated info poller (`_handle_info_listener`, lines 207-223) -/

/-- Loop-local state of `_handle_info_listener`: `last_info = None` and
`last_info_lite = None` before the first iteration (lines 208-209). -/
structure InfoState where
  last_info : Option LnInfo
  last_info_lite : Option LightningInfoLite
  deriving DecidableEq, Repr

def initInfoState : InfoState := ⟨none, none⟩

/-- One iteration of the `while True` body (lines 210-222), given the snapshot
`info` fetched by `ln.get_ln_info_impl()`.  Returns the updated loop state, the
value published on `SSE.LN_INFO` this cycle (if any), and the value published
on `SSE.LN_INFO_LITE` this cycle (if any).  Lines 213-215 gate the full
publish on `last_info != info`; lines 217-221 derive the lite projection and
gate its publish on `last_info_lite != info_lite`, independently. -/
def infoCycle (info : LnInfo) (s : InfoState) :
    InfoState × Option LnInfo × Option LightningInfoLite :=
  let full : Option LnInfo × Option LnInfo :=
    if s.last_info ≠ some info then (some info, some info) else (s.last_info, none)
  let info_lite := LightningInfoLite.from_lninfo info
  let lite : Option LightningInfoLite × Option LightningInfoLite :=
    if s.last_info_lite ≠ some info_lite then (some info_lite, some info_lite)
    else (s.last_info_lite, none)
  (⟨full.1, lite.1⟩, full.2, lite.2)

/-- Run of the poll loop over a list of successively fetched snapshots.
Returns the final loop state and the publish histories of the `LN_INFO` and
`LN_INFO_LITE` channels, in publish order. -/
def run_info_listener :
    List LnInfo → InfoState → InfoState × List LnInfo × List LightningInfoLite
  | [], s => (s, [], [])
  | info :: rest, s =>
    let c := infoCycle info s
    let r := run_info_listener rest c.1
    (r.1, c.2.1.toList ++ r.2.1, c.2.2.toList ++ r.2.2)

/-- Outcome of one `ln.get_ln_info_impl()` call inside the poll loop. -/
inductive InfoFetch where
  | ok (info : LnInfo)
  | unavailable
  deriving DecidableEq, Repr

/-- Run of `_handle_info_listener` against a list of fetch outcomes.  The loop
body (lines 210-223) contains no try/except, so a raising fetch propagates out
of the `while True` and the task ends: later outcomes are never consumed and
nothing further is published.  The final `Bool` records whether the loop was
terminated by such an exception (`false` means the oracle list was exhausted
with the loop still running). -/
def run_info_listener_fallible :
    List InfoFetch → InfoState →
    InfoState × List LnInfo × List LightningInfoLite × Bool
  | [], s => (s, [], [], false)
  | .unavailable :: _, s => (s, [], [], true)
  | .ok info :: rest, s =>
    let c := infoCycle info s
    let r := run_info_listener_fallible rest c.1
    (r.1, c.2.1.toList ++ r.2.1, c.2.2.toList ++ r.2.2.1, r.2.2.2)

/-! ## Generic equality gate

All three suppressible channels use the same source pattern
`if cache != v: publish(v); cache = v` (lines 213-215, 219-221, 274-276).
`gatedRun` folds that pattern over a list of fetched values; bridge lemmas
relate it to the concrete runners. -/

def gatedRun {α : Type} [DecidableEq α] : List α → Option α → Option α × List α
  | [], cache => (cache, [])
  | v :: rest, cache =>
    if cache ≠ some v then
      let r := gatedRun rest (some v)
      (r.1, v :: r.2)
    else
      gatedRun rest cache

theorem gatedRun_chain {α : Type} [DecidableEq α] (l : List α) (c : Option α) :
    List.Chain' (· ≠ ·) (c.toList ++ (gatedRun l c).2) := by
  induction l generalizing c with
  | nil => cases c <;> simp [gatedRun]
  | cons v rest ih =>
    by_cases h : c = some v
    · subst h
      simpa [gatedRun] using ih (some v)
    · have ih' := ih (some v)
      simp only [Option.toList, List.singleton_append] at ih'
      cases c with
      | none => simpa [gatedRun, h] using ih'
      | some w =>
        have hwv : w ≠ v := by
          intro he; exact h (by rw [he])
        simp only [gatedRun, ne_eq, h, not_false_iff, if_pos, Option.toList,
          List.singleton_append, List.chain'_cons]
        exact ⟨hwv, ih'⟩

theorem getLast?_cons_or {α : Type} (v : α) (l : List α) :
    (v :: l).getLast? = l.getLast?.or (some v) := by
  induction l generalizing v with
  | nil => simp
  | cons x xs ih =>
    rw [List.getLast?_cons_cons, ih x]
    cases hx : xs.getLast? <;> simp [ih, hx]

theorem gatedRun_cache {α : Type} [DecidableEq α] (l : List α) (c : Option α) :
    (gatedRun l c).1 = ((gatedRun l c).2.getLast?).or c := by
  induction l generalizing c with
  | nil => simp [gatedRun]
  | cons v rest ih =>
    by_cases h : c = some v
    · subst h
      simpa [gatedRun] using ih (some v)
    · have ih' := ih (some v)
      simp only [gatedRun, ne_eq, h, not_false_iff, if_pos]
      rw [ih', getLast?_cons_or]
      cases hx : (gatedRun rest (some v)).2.getLast? <;> simp

/-- Bridge: the full-info channel of `run_info_listener` is the generic gate
applied to the fetched snapshots, and the final `last_info` is the gate's
final cache. -/
theorem run_info_listener_full (l : List LnInfo) (s : InfoState) :
    (run_info_listener l s).2.1 = (gatedRun l s.last_info).2 ∧
    (run_info_listener l s).1.last_info = (gatedRun l s.last_info).1 := by
  induction l generalizing s with
  | nil => simp [run_info_listener, gatedRun]
  | cons info rest ih =>
    have ihx := ih (infoCycle info s).1
    by_cases h : s.last_info = some info <;>
      simp only [run_info_listener, gatedRun, ne_eq, h, not_true_eq_false,
        not_false_iff, if_pos, if_neg, infoCycle] at ihx ⊢ <;>
      by_cases h2 : s.last_info_lite = some (LightningInfoLite.from_lninfo info) <;>
      simp [h, h2] at ihx ⊢ <;> exact ihx

/-- Bridge: the lite channel of `run_info_listener` is the generic gate applied
to the projections of the fetched snapshots, with final cache `last_info_lite`. -/
theorem run_info_listener_lite (l : List LnInfo) (s : InfoState) :
    (run_info_listener l s).2.2 =
      (gatedRun (l.map LightningInfoLite.from_lninfo) s.last_info_lite).2 ∧
    (run_info_listener l s).1.last_info_lite =
      (gatedRun (l.map LightningInfoLite.from_lninfo) s.last_info_lite).1 := by
  induction l generalizing s with
  | nil => simp [run_info_listener, gatedRun]
  | cons info rest ih =>
    have ihx := ih (infoCycle info s).1
    by_cases h : s.last_info = some info <;>
      by_cases h2 : s.last_info_lite = some (LightningInfoLite.from_lninfo info) <;>
      simp only [run_info_listener, List.map_cons, gatedRun, ne_eq, h, h2,
        not_true_eq_false, not_false_iff, if_pos, if_neg, infoCycle] at ihx ⊢ <;>
      simp [h, h2] at ihx ⊢ <;> exact ihx

/-! ## Coordinator state

Shared mutable module state of `lightning.py` (lines 45, 232-233, 265)
together with the pending delayed tasks and the observable publish history. -/

/-- Phase of one live `_perform_update` coroutine (lines 269-278), delimited
by its `await` suspension points. -/
inductive BalTask where
  /-- `loop.create_task(_perform_update())` was called at time `t`
  (line 283); the coroutine body has not started running yet — in particular
  `_wallet_balance_update_scheduled` is still whatever it was. -/
  | created (t : ℚ)
  /-- The body started: it set the flag (line 271) and is inside
  `asyncio.sleep(1.1)` (line 272) until time `tf`. -/
  | sleeping (tf : ℚ)
  /-- The sleep returned; the task is awaiting
  `ln.get_wallet_balance_impl()` (line 273). -/
  | fetching
  /-- The fetch returned `wb`, the test `_CACHE != wb` passed (line 274) and
  the task is awaiting `broadcast_sse_msg` (line 275): the publish has been
  emitted, but the cache write (line 276) has not happened yet. -/
  | publishing (wb : WalletBalance)
  deriving DecidableEq, Repr

structure CoordState where
  /-- Python global `_fwd_update_scheduled` (line 232). -/
  fwd_update_scheduled : Bool
  /-- Sleep-expiry times of pending `_schedule_fwd_update` tasks.  The source
  has no such list: it is how the model counts outstanding delayed tasks. -/
  fwd_pending : List ℚ
  /-- Python global `_fwd_successes` (line 233): the coalescing buffer. -/
  fwd_successes : List ForwardEvent
  /-- Python global `_wallet_balance_update_scheduled` (line 265). -/
  wallet_balance_update_scheduled : Bool
  /-- The live `_perform_update` coroutines, in creation order, each in its
  current phase. -/
  bal_tasks : List BalTask
  /-- Python module cache `_CACHE["wallet_balance"]` (line 45), `None` at start. -/
  cache_wallet_balance : Option WalletBalance
  /-- History of `SSE.LN_FORWARD_SUCCESSES` batch publishes (line 248). -/
  sse_forward_batches : List (List ForwardEvent)
  /-- Number of `SSE.LN_FEE_REVENUE` publishes (line 252). -/
  sse_fee_revenue_count : Nat
  /-- History of `SSE.WALLET_BALANCE` publishes (line 275). -/
  sse_wallet_balance : List WalletBalance
  /-- History of `SSE.LN_INVOICE_STATUS` publishes (line 228). -/
  sse_invoice_status : List Invoice
  deriving DecidableEq, Repr

def initCoordState : CoordState :=
  { fwd_update_scheduled := false
    fwd_pending := []
    fwd_successes := []
    wallet_balance_update_scheduled := false
    bal_tasks := []
    cache_wallet_balance := none
    sse_forward_batches := []
    sse_fee_revenue_count := 0
    sse_wallet_balance := []
    sse_invoice_status := [] }

/-- The mark-dirty operation `_schedule_wallet_balance_update` (lines 268-283)
invoked at wall-clock time `t`: if `_wallet_balance_update_scheduled` is
false, call `loop.create_task(_perform_update())` (lines 281-283), which only
queues the coroutine — the flag is NOT set here; `_perform_update` sets it
when it first runs (line 271), on a later scheduler turn.  If the flag is
already set, nothing happens. -/
def schedule_wallet_balance_update (t : ℚ) (s : CoordState) : CoordState :=
  if s.wallet_balance_update_scheduled then s
  else { s with bal_tasks := s.bal_tasks ++ [.created t] }

/-- Advance one `_perform_update` coroutine by one await-delimited segment
(lines 269-278).  `now` is the wall-clock time of the turn and `wb` the
balance the backend returns to the fetch.  Returns the task's next phase
(`none` when the coroutine finished) and the updated shared state:

* `created` → run lines 271-272: set the flag, start the 1.1 s sleep;
* `sleeping` → the sleep returned, start the fetch (line 273);
* `fetching` → the fetch returned `wb`; if `_CACHE != wb` (line 274) start
  `broadcast_sse_msg` — the publish is emitted now, the cache is still
  unwritten; otherwise fall through to line 278 and clear the flag;
* `publishing` → the broadcast returned: write the cache (line 276) and
  clear the flag (line 278). -/
def balTaskAdvance (now : ℚ) (wb : WalletBalance) (task : BalTask)
    (s : CoordState) : Option BalTask × CoordState :=
  match task with
  | .created _ =>
    (some (.sleeping (now + 11/10)),
      { s with wallet_balance_update_scheduled := true })
  | .sleeping _ => (some .fetching, s)
  | .fetching =>
    if s.cache_wallet_balance ≠ some wb then
      (some (.publishing wb),
        { s with sse_wallet_balance := s.sse_wallet_balance ++ [wb] })
    else
      (none, { s with wallet_balance_update_scheduled := false })
  | .publishing wb0 =>
    (none,
      { s with
        cache_wallet_balance := some wb0
        wallet_balance_update_scheduled := false })

/-- A scheduler turn given to the `k`-th live `_perform_update` coroutine:
advance it one segment and update the task list (drop it when finished). -/
def balTaskStepAt (k : Nat) (now : ℚ) (wb : WalletBalance) (s : CoordState) :
    CoordState :=
  match s.bal_tasks.get? k with
  | none => s
  | some task =>
    let r := balTaskAdvance now wb task s
    match r.1 with
    | some ph => { r.2 with bal_tasks := r.2.bal_tasks.set k ph }
    | none => { r.2 with bal_tasks := r.2.bal_tasks.eraseIdx k }

/-- The body of the `async for` loop of `_handle_forward_event_listener`
(lines 256-262) for one forward event `e` arriving at time `t`:
append `i.dict()` to `_fwd_successes` only when `ENABLE_FWD_NOTIFICATIONS`
(lines 257-258), then create a `_schedule_fwd_update` task unless one is
already scheduled (lines 260-262).  The spawned task immediately sets
`_fwd_update_scheduled = True` (line 241) and sleeps `FWD_GATHER_INTERVAL`
(line 243); both are merged into this transition, which is sound for this
flag only: the listener is its sole producer and suspends on the next stream
element right after `create_task`, so the spawned task sets the flag before
the next arrival can be handled. -/
def handle_forward_event (enable_fwd : Bool) (interval t : ℚ) (e : ForwardEvent)
    (s : CoordState) : CoordState :=
  let s1 :=
    if enable_fwd then { s with fwd_successes := s.fwd_successes ++ [e] } else s
  if s1.fwd_update_scheduled then s1
  else
    { s1 with
      fwd_update_scheduled := true
      fwd_pending := s1.fwd_pending ++ [t + interval] }

/-- The body of `_schedule_fwd_update` after its sleep expires (lines 245-254):
if the buffer is non-empty, swap it out and publish it as one batch
(lines 245-248); signal the wallet-balance debounce (line 250); fetch and
publish fee revenue unconditionally (lines 251-252); clear
`_fwd_update_scheduled` last (line 254).  Modelled as popping one pending
task, whose expiry time is the wall-clock time at which the body runs. -/
def fwd_update_fire (s : CoordState) : CoordState :=
  match s.fwd_pending with
  | [] => s
  | tf :: rest =>
    let s1 :=
      if s.fwd_successes.isEmpty then s
      else
        { s with
          fwd_successes := []
          sse_forward_batches := s.sse_forward_batches ++ [s.fwd_successes] }
    let s2 := schedule_wallet_balance_update tf s1
    let s3 := { s2 with sse_fee_revenue_count := s2.sse_fee_revenue_count + 1 }
    { s3 with
      fwd_update_scheduled := false
      fwd_pending := rest }

/-- The body of the `async for` loop of `_handle_invoice_listener`
(lines 227-229) for one invoice event `i` delivered at time `t`: publish it
immediately and unconditionally, then signal the wallet-balance debounce. -/
def handle_invoice (t : ℚ) (i : Invoice) (s : CoordState) : CoordState :=
  schedule_wallet_balance_update t
    { s with sse_invoice_status := s.sse_invoice_status ++ [i] }

/-- Run of the invoice relay over the events delivered by
`ln.listen_invoices()`, each tagged with its delivery time. -/
def run_invoice_listener : List (ℚ × Invoice) → CoordState → CoordState
  | [], s => s
  | (t, i) :: rest, s => run_invoice_listener rest (handle_invoice t i s)

/-! ## Small-step view for reachability -/

/-- One schedulable transition of the coordinator. -/
inductive CoordStep where
  /-- A forward event delivered by `ln.listen_forward_events()` at time `t`. -/
  | forwardEvent (t : ℚ) (e : ForwardEvent)
  /-- The sleep of the oldest pending `_schedule_fwd_update` task expires. -/
  | forwardFlushFire
  /-- An invoice event delivered by `ln.listen_invoices()` at time `t`. -/
  | invoiceEvent (t : ℚ) (i : Invoice)
  /-- `send_coins` / `send_payment` completing at time `t`: both call
  `_schedule_wallet_balance_update()` (lines 117, 130). -/
  | paymentSent (t : ℚ)
  /-- A scheduler turn given to the `k`-th live `_perform_update` coroutine
  at time `now`; `wb` is the balance the backend returns to its fetch. -/
  | balTaskStep (k : Nat) (now : ℚ) (wb : WalletBalance)
  deriving DecidableEq, Repr

def applyStep (enable_fwd : Bool) (interval : ℚ) (st : CoordStep)
    (s : CoordState) : CoordState :=
  match st with
  | .forwardEvent t e => handle_forward_event enable_fwd interval t e s
  | .forwardFlushFire => fwd_update_fire s
  | .invoiceEvent t i => handle_invoice t i s
  | .paymentSent t => schedule_wallet_balance_update t s
  | .balTaskStep k now wb => balTaskStepAt k now wb s

/-- A run of the coordinator from module-initialisation state through any
interleaving of transitions. -/
def runSteps (enable_fwd : Bool) (interval : ℚ) (l : List CoordStep) : CoordState :=
  l.foldl (fun s st => applyStep enable_fwd interval st s) initCoordState

/-! ## Timed run of the forward aggregator (for the flush-window claims)

`run_forward_timeline` executes the forward listener against a time-ordered
list of `(arrival time, event)` pairs: before each arrival, a pending flush
whose sleep has already expired runs first; after the last arrival, every
still-pending flush runs.  (At most one flush is ever pending, so at most one
can be due before any given arrival.) -/

def drain_fwd : Nat → CoordState → CoordState
  | 0, s => s
  | n + 1, s =>
    match s.fwd_pending with
    | [] => s
    | _ :: _ => drain_fwd n (fwd_update_fire s)

/-- Before an arrival at time `t` is handled, a pending flush whose sleep has
already expired runs first. -/
def timeline_prestep (t : ℚ) (s : CoordState) : CoordState :=
  match s.fwd_pending with
  | tf :: _ => if tf ≤ t then fwd_update_fire s else s
  | [] => s

def run_forward_timeline (enable_fwd : Bool) (interval : ℚ) :
    List (ℚ × ForwardEvent) → CoordState → CoordState
  | [], s => drain_fwd s.fwd_pending.length s
  | (t, e) :: rest, s =>
    run_forward_timeline enable_fwd interval rest
      (handle_forward_event enable_fwd interval t e (timeline_prestep t s))

/-! ## Configuration validation (lines 51-55) -/

/-- Default of the `forwards_gather_interval` option (line 51). -/
def FWD_GATHER_INTERVAL_default : ℚ := 2

/-- Module-load validation of `FWD_GATHER_INTERVAL` (lines 54-55): a value
below 0.3 raises `RuntimeError` at import time, before any listener loop can
be created; otherwise the configured value stands. -/
def validate_forwards_gather_interval (v : ℚ) : Except String ℚ :=
  if v < 3/10 then
    .error "forwards_gather_interval cannot be less than 0.3 seconds"
  else
    .ok v

/-! ## Listener registration (`register_lightning_listener`, lines 180-204) -/

/-- Outcome of the probing `ln.get_ln_info_impl()` call (line 197).  Per the
docstring (lines 184-186) the implementation raises `HTTPException` with
status 423 LOCKED when the wallet is locked; a missing implementation raises
`NotImplementedError`. -/
inductive ProbeResult where
  | ok
  | locked
  | notImplemented
  deriving DecidableEq, Repr

/-- Error surfaced to the caller of `register_lightning_listener`. -/
inductive RegError where
  /-- `HTTPException(status_code=423)` from the probe: the `try` block only
  catches `NotImplementedError` (line 203), so it propagates unchanged. -/
  | httpLocked
  /-- `NotImplementedError` re-raised as `HTTPException(501)` (line 204). -/
  | http501
  deriving DecidableEq, Repr

/-- A background loop started with `loop.create_task` (lines 200-202). -/
inductive ListenerTask where
  | infoListener
  | invoiceListener
  | forwardEventListener
  deriving DecidableEq, Repr

/-- Result of a `register_lightning_listener()` call: which background tasks
were created, and the error raised to the caller, if any. -/
structure RegistrationResult where
  tasks : List ListenerTask
  error : Option RegError
  deriving DecidableEq, Repr

/-- `register_lightning_listener` (lines 180-204): with no lightning
configured (`ln_node` empty or `"none"`, lines 191-195) it logs and returns
without starting anything; otherwise it probes the backend once (line 197)
and only on success creates the three listener tasks (lines 199-202). -/
def register_lightning_listener (ln_node : String) (probe : ProbeResult) :
    RegistrationResult :=
  if ln_node = "" ∨ ln_node = "none" then ⟨[], none⟩
  else
    match probe with
    | .ok => ⟨[.infoListener, .invoiceListener, .forwardEventListener], none⟩
    | .locked => ⟨[], some .httpLocked⟩
    | .notImplemented => ⟨[], some .http501⟩

/-! ## `channel_open` (lines 134-151) -/

/-- `channel_open` parameterised by the backend call `ln.channel_open_impl`
(line 150), so that "the backend is never invoked on a validation failure"
is expressible as independence from `backend`.  The four guards and their
`ValueError` messages are lines 138-148; the Python test `"@" in node_URI`
is membership of the single character in the string. -/
def channel_open (backend : Int → String → Int → String)
    (local_funding_amount : Int) (node_URI : String) (target_confs : Int) :
    Except String String :=
  if local_funding_amount < 1 then
    .error "funding amount needs to be positive"
  else if target_confs < 1 then
    .error "target confs needs to be positive"
  else if node_URI.length = 0 then
    .error "node_URI cant be empty"
  else if ¬ node_URI.data.contains '@' then
    .error "node_URI must contain @ with node physical address"
  else
    .ok (backend local_funding_amount node_URI target_confs)

/-! ## Sample values and invariant predicates -/

def sampleInfo : LnInfo :=
  ⟨"LND", "0.17.0", "02aabbcc", 3, 800000, true, 2, "02aabbcc@host:9735"⟩

/-- Same snapshot as `sampleInfo` except for `identity_uri`, a field outside
the lite projection. -/
def sampleInfo2 : LnInfo := { sampleInfo with identity_uri := "02aabbcc@other:9735" }

def sampleFwd : ForwardEvent := ⟨1, 2, 1000⟩

def sampleFwd2 : ForwardEvent := ⟨2, 3, 1500⟩

def sampleInvoice : Invoice := ⟨21000, "coffee", true⟩

def sampleBalance : WalletBalance := ⟨100000, 0, 100000⟩

/-- A coordinator state with a wallet-balance refresh already running (its
`_perform_update` set the flag and is sleeping). -/
def balScheduledState : CoordState :=
  { initCoordState with
    wallet_balance_update_scheduled := true
    bal_tasks := [.sleeping (11/10)] }

/-- A coordinator state with a forward flush pending and an empty buffer. -/
def pendingEmptyBufState : CoordState :=
  { initCoordState with
    fwd_update_scheduled := true
    fwd_pending := [0] }

/-- A coordinator state with a forward flush pending and one buffered event. -/
def pendingFullBufState : CoordState :=
  { pendingEmptyBufState with fwd_successes := [sampleFwd] }

/-- Single-flight invariant of the forward flush: a cleared flag has no
pending flush task behind it, and at most one flush task is ever pending.
The analogous statement for the wallet-balance flag is FALSE of the source
(the flag is set only when the spawned task first runs), which is why it does
not appear here. -/
def SingleFlightInv (s : CoordState) : Prop :=
  (s.fwd_update_scheduled = false → s.fwd_pending = []) ∧
  s.fwd_pending.length ≤ 1

/-! ## Projection lemmas -/

@[simp] theorem swbu_fwd_update_scheduled (t : ℚ) (s : CoordState) :
    (schedule_wallet_balance_update t s).fwd_update_scheduled =
      s.fwd_update_scheduled := by
  rw [schedule_wallet_balance_update]; split <;> rfl

@[simp] theorem swbu_fwd_pending (t : ℚ) (s : CoordState) :
    (schedule_wallet_balance_update t s).fwd_pending = s.fwd_pending := by
  rw [schedule_wallet_balance_update]; split <;> rfl

@[simp] theorem swbu_fwd_successes (t : ℚ) (s : CoordState) :
    (schedule_wallet_balance_update t s).fwd_successes = s.fwd_successes := by
  rw [schedule_wallet_balance_update]; split <;> rfl

@[simp] theorem swbu_sse_forward_batches (t : ℚ) (s : CoordState) :
    (schedule_wallet_balance_update t s).sse_forward_batches =
      s.sse_forward_batches := by
  rw [schedule_wallet_balance_update]; split <;> rfl

@[simp] theorem swbu_sse_fee_revenue_count (t : ℚ) (s : CoordState) :
    (schedule_wallet_balance_update t s).sse_fee_revenue_count =
      s.sse_fee_revenue_count := by
  rw [schedule_wallet_balance_update]; split <;> rfl

@[simp] theorem swbu_sse_wallet_balance (t : ℚ) (s : CoordState) :
    (schedule_wallet_balance_update t s).sse_wallet_balance =
      s.sse_wallet_balance := by
  rw [schedule_wallet_balance_update]; split <;> rfl

@[simp] theorem swbu_cache_wallet_balance (t : ℚ) (s : CoordState) :
    (schedule_wallet_balance_update t s).cache_wallet_balance =
      s.cache_wallet_balance := by
  rw [schedule_wallet_balance_update]; split <;> rfl

@[simp] theorem swbu_sse_invoice_status (t : ℚ) (s : CoordState) :
    (schedule_wallet_balance_update t s).sse_invoice_status =
      s.sse_invoice_status := by
  rw [schedule_wallet_balance_update]; split <;> rfl

/-- Mark-dirty never touches the flag itself: `create_task` only queues the
coroutine and `_perform_update` sets the flag when it first runs. -/
@[simp] theorem swbu_wallet_balance_update_scheduled (t : ℚ) (s : CoordState) :
    (schedule_wallet_balance_update t s).wallet_balance_update_scheduled =
      s.wallet_balance_update_scheduled := by
  rw [schedule_wallet_balance_update]; split <;> rfl

/-- Mark-dirty with the flag clear spawns exactly one fresh refresh task. -/
theorem swbu_bal_tasks_of_flag (t : ℚ) (s : CoordState)
    (h : s.wallet_balance_update_scheduled = false) :
    (schedule_wallet_balance_update t s).bal_tasks =
      s.bal_tasks ++ [.created t] := by
  rw [schedule_wallet_balance_update, if_neg (by simp [h])]

/-- Mark-dirty with the flag set is a no-op. -/
theorem swbu_noop_of_flag (t : ℚ) (s : CoordState)
    (h : s.wallet_balance_update_scheduled = true) :
    schedule_wallet_balance_update t s = s := by
  rw [schedule_wallet_balance_update, if_pos h]

/-! ## Claim theorems: configuration, channel open, startup guard -/

/-- Claim C9: a configured forward-flush window below the hard minimum 0.3
fails module construction with a configuration error (`RuntimeError`, raised
at import time, before any loop can start); any value at or above 0.3 is
accepted, and the default 2.0 is accepted. -/
theorem c9_flush_window_validation (v : ℚ) :
    (v < 3/10 → validate_forwards_gather_interval v =
      .error "forwards_gather_interval cannot be less than 0.3 seconds") ∧
    (3/10 ≤ v → validate_forwards_gather_interval v = .ok v) ∧
    validate_forwards_gather_interval FWD_GATHER_INTERVAL_default =
      .ok FWD_GATHER_INTERVAL_default := by
  refine ⟨fun h => ?_, fun h => ?_, ?_⟩
  · rw [validate_forwards_gather_interval, if_pos h]
  · rw [validate_forwards_gather_interval, if_neg (not_lt.mpr h)]
  · rw [validate_forwards_gather_interval, FWD_GATHER_INTERVAL_default]
    norm_num

theorem c9_flush_window_validation_witness :
    validate_forwards_gather_interval (1/10) =
      .error "forwards_gather_interval cannot be less than 0.3 seconds" ∧
    validate_forwards_gather_interval 2 = .ok 2 :=
  ⟨(c9_flush_window_validation (1/10)).1 (by norm_num),
   (c9_flush_window_validation 2).2.1 (by norm_num)⟩

/-- Claim C10: `channel_open` raises `ValueError` without ever invoking the
backend whenever the funding amount or the target confirmations are below 1,
the node URI is empty, or the node URI has no `@`; otherwise it returns the
backend's result unchanged.  Never invoking the backend is expressed as the
result being independent of the `backend` function. -/
theorem c10_channel_open_validation
    (backend backend2 : Int → String → Int → String)
    (local_funding_amount : Int) (node_URI : String) (target_confs : Int) :
    (local_funding_amount < 1 ∨ target_confs < 1 ∨ node_URI.length = 0 ∨
        ¬ node_URI.data.contains '@' →
      (∃ msg, channel_open backend local_funding_amount node_URI target_confs =
          .error msg) ∧
      channel_open backend local_funding_amount node_URI target_confs =
        channel_open backend2 local_funding_amount node_URI target_confs) ∧
    (1 ≤ local_funding_amount → 1 ≤ target_confs → node_URI.length ≠ 0 →
      node_URI.data.contains '@' = true →
      channel_open backend local_funding_amount node_URI target_confs =
        .ok (backend local_funding_amount node_URI target_confs)) := by
  constructor
  · intro h
    unfold channel_open
    by_cases h1 : local_funding_amount < 1
    · simp only [if_pos h1]; exact ⟨⟨_, rfl⟩, trivial⟩
    · simp only [if_neg h1]
      by_cases h2 : target_confs < 1
      · simp only [if_pos h2]; exact ⟨⟨_, rfl⟩, trivial⟩
      · simp only [if_neg h2]
        by_cases h3 : node_URI.length = 0
        · simp only [if_pos h3]; exact ⟨⟨_, rfl⟩, trivial⟩
        · simp only [if_neg h3]
          by_cases h4 : node_URI.data.contains '@' = true
          · simp only [if_neg (show ¬¬(node_URI.data.contains '@' = true) by
              simpa using h4)]
            rcases h with h | h | h | h
            · exact absurd h h1
            · exact absurd h h2
            · exact absurd h h3
            · exact absurd h4 h
          · simp only [if_pos (show ¬(node_URI.data.contains '@' = true) by
              simpa using h4)]
            exact ⟨⟨_, rfl⟩, trivial⟩
  · intro h1 h2 h3 h4
    unfold channel_open
    rw [if_neg (not_lt.mpr h1), if_neg (not_lt.mpr h2), if_neg h3,
      if_neg (by simpa using h4)]

theorem c10_channel_open_validation_witness :
    (∃ msg, channel_open (fun _ _ _ => "txid1") 0 "02aabbcc@host:9735" 3 =
        .error msg) ∧
    channel_open (fun _ _ _ => "txid1") 0 "02aabbcc@host:9735" 3 =
      channel_open (fun _ _ _ => "txid2") 0 "02aabbcc@host:9735" 3 ∧
    channel_open (fun _ _ _ => "txid1") 500000 "02aabbcc@host:9735" 3 =
      .ok "txid1" :=
  ⟨((c10_channel_open_validation (fun _ _ _ => "txid1") (fun _ _ _ => "txid2")
      0 "02aabbcc@host:9735" 3).1 (Or.inl (by decide))).1,
   ((c10_channel_open_validation (fun _ _ _ => "txid1") (fun _ _ _ => "txid2")
      0 "02aabbcc@host:9735" 3).1 (Or.inl (by decide))).2,
   (c10_channel_open_validation (fun _ _ _ => "txid1") (fun _ _ _ => "txid1")
      500000 "02aabbcc@host:9735" 3).2 (by decide) (by decide) (by decide)
      (by decide)⟩

/-- Claim C7: when the initial probe reports the backend locked, the
registration call surfaces the distinguished locked error (`HTTPException`
423, uncaught by the `except NotImplementedError` handler) and creates zero
background tasks; with lightning absent (`""`) or disabled (`"none"`) it
returns normally with zero tasks and no error. -/
theorem c7_startup_guard (ln_node : String) (probe : ProbeResult) :
    (ln_node ≠ "" → ln_node ≠ "none" →
      register_lightning_listener ln_node .locked =
        ⟨[], some .httpLocked⟩) ∧
    (ln_node = "" ∨ ln_node = "none" →
      register_lightning_listener ln_node probe = ⟨[], none⟩) := by
  constructor
  · intro h1 h2
    rw [register_lightning_listener.eq_def, if_neg (by simp [h1, h2])]
  · intro h
    rw [register_lightning_listener.eq_def, if_pos h]

theorem c7_startup_guard_witness :
    register_lightning_listener "lnd_grpc" .locked =
      ⟨[], some .httpLocked⟩ ∧
    register_lightning_listener "none" .ok = ⟨[], none⟩ :=
  ⟨(c7_startup_guard "lnd_grpc" .ok).1 (by decide) (by decide),
   (c7_startup_guard "none" .ok).2 (Or.inr rfl)⟩

/-! ## Claim C5: failure handling of the info poll loop -/

/-- Counterexample to claim C5 as stated: with the fetch outcomes
`[unavailable, ok sampleInfo]` the loop is terminated by the failure
(`true` flag) and publishes nothing — the subsequent successful fetch is
never consumed, so the loop does not "continue, retrying at the next
scheduled fixed interval". -/
theorem c5_counterexample :
    (run_info_listener_fallible [.unavailable, .ok sampleInfo]
        initInfoState).2.2.2 = true ∧
    (run_info_listener_fallible [.unavailable, .ok sampleInfo]
        initInfoState).2.1 = [] :=
  ⟨rfl, rfl⟩

/-- Claim C5 (amended): the poll loop body has no exception handler, so a
transient fetch failure terminates the loop: the state is left unchanged, no
value is published on either channel afterwards, and no later fetch occurs. -/
theorem c5_poll_loop_failure (rest : List InfoFetch) (s : InfoState) :
    run_info_listener_fallible (.unavailable :: rest) s = (s, [], [], true) :=
  rfl

/-! ## Claim C6: independence of the full and lite gates -/

/-- Claim C6: the full-info and lite-info gates are evaluated independently in
every poll cycle.  For consecutive fetches that differ only in fields outside
the lite projection, the second cycle publishes full info and not lite info;
conversely, a cycle whose fetched snapshot equals the cached full snapshot but
whose lite projection differs from the cached lite value publishes lite and
not full. -/
theorem c6_gate_independence (i1 i2 : LnInfo) (s : InfoState) (j : LnInfo)
    (h12 : i1 ≠ i2)
    (hlite : LightningInfoLite.from_lninfo i1 = LightningInfoLite.from_lninfo i2)
    (hfull : s.last_info = some j)
    (hl : s.last_info_lite ≠ some (LightningInfoLite.from_lninfo j)) :
    (run_info_listener [i1, i2] initInfoState).2.1 = [i1, i2] ∧
    (run_info_listener [i1, i2] initInfoState).2.2 =
      [LightningInfoLite.from_lninfo i1] ∧
    infoCycle j s =
      (⟨some j, some (LightningInfoLite.from_lninfo j)⟩, none,
        some (LightningInfoLite.from_lninfo j)) := by
  refine ⟨?_, ?_, ?_⟩
  · simp [run_info_listener, infoCycle, initInfoState, h12, ← hlite]
  · simp [run_info_listener, infoCycle, initInfoState, h12, ← hlite]
  · simp [infoCycle, hfull, hl]

theorem c6_gate_independence_witness :
    (run_info_listener [sampleInfo, sampleInfo2] initInfoState).2.1 =
      [sampleInfo, sampleInfo2] ∧
    (run_info_listener [sampleInfo, sampleInfo2] initInfoState).2.2 =
      [LightningInfoLite.from_lninfo sampleInfo] ∧
    infoCycle sampleInfo ⟨some sampleInfo, none⟩ =
      (⟨some sampleInfo, some (LightningInfoLite.from_lninfo sampleInfo)⟩, none,
        some (LightningInfoLite.from_lninfo sampleInfo)) :=
  c6_gate_independence sampleInfo sampleInfo2 ⟨some sampleInfo, none⟩ sampleInfo
    (by decide) rfl rfl (by decide)

/-! ## Claim C3: suppressible channels never repeat -/

@[simp] theorem hfe_wallet_balance_update_scheduled (en : Bool) (iv t : ℚ)
    (e : ForwardEvent) (s : CoordState) :
    (handle_forward_event en iv t e s).wallet_balance_update_scheduled =
      s.wallet_balance_update_scheduled := by
  unfold handle_forward_event
  split <;> (dsimp only; split <;> rfl)

@[simp] theorem hfe_bal_tasks (en : Bool) (iv t : ℚ) (e : ForwardEvent)
    (s : CoordState) :
    (handle_forward_event en iv t e s).bal_tasks = s.bal_tasks := by
  unfold handle_forward_event
  split <;> (dsimp only; split <;> rfl)

@[simp] theorem hfe_cache_wallet_balance (en : Bool) (iv t : ℚ)
    (e : ForwardEvent) (s : CoordState) :
    (handle_forward_event en iv t e s).cache_wallet_balance =
      s.cache_wallet_balance := by
  unfold handle_forward_event
  split <;> (dsimp only; split <;> rfl)

@[simp] theorem hfe_sse_wallet_balance (en : Bool) (iv t : ℚ)
    (e : ForwardEvent) (s : CoordState) :
    (handle_forward_event en iv t e s).sse_wallet_balance =
      s.sse_wallet_balance := by
  unfold handle_forward_event
  split <;> (dsimp only; split <;> rfl)

@[simp] theorem hfe_sse_fee_revenue_count (en : Bool) (iv t : ℚ)
    (e : ForwardEvent) (s : CoordState) :
    (handle_forward_event en iv t e s).sse_fee_revenue_count =
      s.sse_fee_revenue_count := by
  unfold handle_forward_event
  split <;> (dsimp only; split <;> rfl)

@[simp] theorem hfe_sse_invoice_status (en : Bool) (iv t : ℚ)
    (e : ForwardEvent) (s : CoordState) :
    (handle_forward_event en iv t e s).sse_invoice_status =
      s.sse_invoice_status := by
  unfold handle_forward_event
  split <;> (dsimp only; split <;> rfl)

@[simp] theorem hfe_sse_forward_batches (en : Bool) (iv t : ℚ)
    (e : ForwardEvent) (s : CoordState) :
    (handle_forward_event en iv t e s).sse_forward_batches =
      s.sse_forward_batches := by
  unfold handle_forward_event
  split <;> (dsimp only; split <;> rfl)

@[simp] theorem fire_cache_wallet_balance (s : CoordState) :
    (fwd_update_fire s).cache_wallet_balance = s.cache_wallet_balance := by
  unfold fwd_update_fire
  split
  · rfl
  · dsimp only
    split <;> simp

@[simp] theorem fire_sse_wallet_balance (s : CoordState) :
    (fwd_update_fire s).sse_wallet_balance = s.sse_wallet_balance := by
  unfold fwd_update_fire
  split
  · rfl
  · dsimp only
    split <;> simp

@[simp] theorem fire_sse_invoice_status (s : CoordState) :
    (fwd_update_fire s).sse_invoice_status = s.sse_invoice_status := by
  unfold fwd_update_fire
  split
  · rfl
  · dsimp only
    split <;> simp

@[simp] theorem btsa_fwd_update_scheduled (k : Nat) (now : ℚ)
    (wb : WalletBalance) (s : CoordState) :
    (balTaskStepAt k now wb s).fwd_update_scheduled =
      s.fwd_update_scheduled := by
  unfold balTaskStepAt balTaskAdvance
  split
  · rfl
  · rename_i task heq
    cases task with
    | created t0 => rfl
    | sleeping tf => rfl
    | publishing wb0 => rfl
    | fetching =>
      by_cases hc : s.cache_wallet_balance = some wb
      · rw [if_neg (not_not_intro hc)]
      · rw [if_pos hc]

@[simp] theorem btsa_fwd_pending (k : Nat) (now : ℚ) (wb : WalletBalance)
    (s : CoordState) :
    (balTaskStepAt k now wb s).fwd_pending = s.fwd_pending := by
  unfold balTaskStepAt balTaskAdvance
  split
  · rfl
  · rename_i task heq
    cases task with
    | created t0 => rfl
    | sleeping tf => rfl
    | publishing wb0 => rfl
    | fetching =>
      by_cases hc : s.cache_wallet_balance = some wb
      · rw [if_neg (not_not_intro hc)]
      · rw [if_pos hc]

@[simp] theorem btsa_fwd_successes (k : Nat) (now : ℚ) (wb : WalletBalance)
    (s : CoordState) :
    (balTaskStepAt k now wb s).fwd_successes = s.fwd_successes := by
  unfold balTaskStepAt balTaskAdvance
  split
  · rfl
  · rename_i task heq
    cases task with
    | created t0 => rfl
    | sleeping tf => rfl
    | publishing wb0 => rfl
    | fetching =>
      by_cases hc : s.cache_wallet_balance = some wb
      · rw [if_neg (not_not_intro hc)]
      · rw [if_pos hc]

@[simp] theorem btsa_sse_forward_batches (k : Nat) (now : ℚ)
    (wb : WalletBalance) (s : CoordState) :
    (balTaskStepAt k now wb s).sse_forward_batches =
      s.sse_forward_batches := by
  unfold balTaskStepAt balTaskAdvance
  split
  · rfl
  · rename_i task heq
    cases task with
    | created t0 => rfl
    | sleeping tf => rfl
    | publishing wb0 => rfl
    | fetching =>
      by_cases hc : s.cache_wallet_balance = some wb
      · rw [if_neg (not_not_intro hc)]
      · rw [if_pos hc]

@[simp] theorem btsa_sse_fee_revenue_count (k : Nat) (now : ℚ)
    (wb : WalletBalance) (s : CoordState) :
    (balTaskStepAt k now wb s).sse_fee_revenue_count =
      s.sse_fee_revenue_count := by
  unfold balTaskStepAt balTaskAdvance
  split
  · rfl
  · rename_i task heq
    cases task with
    | created t0 => rfl
    | sleeping tf => rfl
    | publishing wb0 => rfl
    | fetching =>
      by_cases hc : s.cache_wallet_balance = some wb
      · rw [if_neg (not_not_intro hc)]
      · rw [if_pos hc]

@[simp] theorem btsa_sse_invoice_status (k : Nat) (now : ℚ)
    (wb : WalletBalance) (s : CoordState) :
    (balTaskStepAt k now wb s).sse_invoice_status = s.sse_invoice_status := by
  unfold balTaskStepAt balTaskAdvance
  split
  · rfl
  · rename_i task heq
    cases task with
    | created t0 => rfl
    | sleeping tf => rfl
    | publishing wb0 => rfl
    | fetching =>
      by_cases hc : s.cache_wallet_balance = some wb
      · rw [if_neg (not_not_intro hc)]
      · rw [if_pos hc]

theorem fire_pop (s : CoordState) (tf : ℚ) (rest : List ℚ)
    (hp : s.fwd_pending = tf :: rest) :
    (fwd_update_fire s).fwd_pending = rest ∧
    (fwd_update_fire s).fwd_update_scheduled = false := by
  unfold fwd_update_fire
  rw [hp]
  dsimp only
  exact ⟨rfl, rfl⟩

/-- Counterexample to claim C3 as stated: an invoice event (line 229) and a
completed payment (line 130) in one scheduler batch spawn two refresh tasks;
interleaving their segments so that both pass the cache test (line 274)
before either reaches the cache write (line 276) — legal, because the
`await broadcast_sse_msg` (line 275) sits in between — makes the wallet
channel publish the same balance twice in a row. -/
theorem c3_counterexample :
    (runSteps true 2
      [CoordStep.invoiceEvent 0 sampleInvoice,
       CoordStep.paymentSent 0,
       CoordStep.balTaskStep 0 0 sampleBalance,
       CoordStep.balTaskStep 1 0 sampleBalance,
       CoordStep.balTaskStep 0 (11/10) sampleBalance,
       CoordStep.balTaskStep 1 (11/10) sampleBalance,
       CoordStep.balTaskStep 0 (11/10) sampleBalance,
       CoordStep.balTaskStep 1 (11/10) sampleBalance]).sse_wallet_balance =
      [sampleBalance, sampleBalance] := rfl

/-- Claim C3 (amended): on the full-info and lite-info channels no two
consecutively published values are structurally equal, a cycle publishes only
when the fresh value differs from the cached last-published value, and the
cache always holds the last published value (`getLast?`, i.e. `None` before
any publish).  For the wallet channel only the per-task gate survives: a
refresh task publishes exactly when the fetched balance differs from the
cache at comparison time, and the cache is written to the published value
when the broadcast completes — but because that broadcast is awaited between
the comparison and the cache write, overlapping refresh tasks can publish two
structurally equal consecutive wallet balances. -/
theorem c3_suppressible_channels (fetches : List LnInfo)
    (now : ℚ) (wb : WalletBalance) (s2 s3 : CoordState)
    (heq : s2.cache_wallet_balance = some wb)
    (hne : s3.cache_wallet_balance ≠ some wb) :
    List.Chain' (· ≠ ·) (run_info_listener fetches initInfoState).2.1 ∧
    List.Chain' (· ≠ ·) (run_info_listener fetches initInfoState).2.2 ∧
    (run_info_listener fetches initInfoState).1.last_info =
      (run_info_listener fetches initInfoState).2.1.getLast? ∧
    (run_info_listener fetches initInfoState).1.last_info_lite =
      (run_info_listener fetches initInfoState).2.2.getLast? ∧
    (∀ (j : LnInfo) (s : InfoState),
      (infoCycle j s).2.1 ≠ none ↔ s.last_info ≠ some j) ∧
    (∀ (j : LnInfo) (s : InfoState),
      (infoCycle j s).2.2 ≠ none ↔
        s.last_info_lite ≠ some (LightningInfoLite.from_lninfo j)) ∧
    (balTaskAdvance now wb .fetching s2).2.sse_wallet_balance =
      s2.sse_wallet_balance ∧
    (balTaskAdvance now wb .fetching s3).2.sse_wallet_balance =
      s3.sse_wallet_balance ++ [wb] ∧
    (balTaskAdvance now wb (.publishing wb) s3).2.cache_wallet_balance =
      some wb := by
  have hfull := run_info_listener_full fetches initInfoState
  have hlite := run_info_listener_lite fetches initInfoState
  refine ⟨?_, ?_, ?_, ?_, ?_, ?_,
    by simp only [balTaskAdvance]; rw [if_neg (not_not_intro heq)],
    by simp only [balTaskAdvance]; rw [if_pos hne],
    by simp only [balTaskAdvance]⟩
  · rw [hfull.1]
    simpa using gatedRun_chain fetches (none : Option LnInfo)
  · rw [hlite.1]
    simpa using
      gatedRun_chain (fetches.map LightningInfoLite.from_lninfo)
        (none : Option LightningInfoLite)
  · rw [hfull.1, hfull.2, gatedRun_cache]
    simp [initInfoState]
  · rw [hlite.1, hlite.2, gatedRun_cache]
    simp [initInfoState]
  · intro j s
    unfold infoCycle
    by_cases h : s.last_info = some j <;> simp [h]
  · intro j s
    unfold infoCycle
    by_cases h : s.last_info_lite = some (LightningInfoLite.from_lninfo j) <;>
      simp [h]

theorem c3_suppressible_channels_witness :
    List.Chain' (· ≠ ·) (run_info_listener [sampleInfo] initInfoState).2.1 ∧
    List.Chain' (· ≠ ·) (run_info_listener [sampleInfo] initInfoState).2.2 ∧
    (run_info_listener [sampleInfo] initInfoState).1.last_info =
      (run_info_listener [sampleInfo] initInfoState).2.1.getLast? ∧
    (run_info_listener [sampleInfo] initInfoState).1.last_info_lite =
      (run_info_listener [sampleInfo] initInfoState).2.2.getLast? ∧
    (∀ (j : LnInfo) (s : InfoState),
      (infoCycle j s).2.1 ≠ none ↔ s.last_info ≠ some j) ∧
    (∀ (j : LnInfo) (s : InfoState),
      (infoCycle j s).2.2 ≠ none ↔
        s.last_info_lite ≠ some (LightningInfoLite.from_lninfo j)) ∧
    (balTaskAdvance 0 sampleBalance .fetching
        { initCoordState with
          cache_wallet_balance := some sampleBalance }).2.sse_wallet_balance =
      ({ initCoordState with
          cache_wallet_balance := some sampleBalance } :
        CoordState).sse_wallet_balance ∧
    (balTaskAdvance 0 sampleBalance .fetching
        initCoordState).2.sse_wallet_balance =
      initCoordState.sse_wallet_balance ++ [sampleBalance] ∧
    (balTaskAdvance 0 sampleBalance (.publishing sampleBalance)
        initCoordState).2.cache_wallet_balance = some sampleBalance :=
  c3_suppressible_channels [sampleInfo] 0 sampleBalance
    { initCoordState with cache_wallet_balance := some sampleBalance }
    initCoordState rfl (by decide)

/-! ## Claim C2: single-flight scheduling -/

/-- After the forward-listener body runs, a flush is always scheduled: either
one already was, or the event just created one. -/
@[simp] theorem hfe_flag (en : Bool) (iv t : ℚ) (e : ForwardEvent)
    (s : CoordState) :
    (handle_forward_event en iv t e s).fwd_update_scheduled = true := by
  unfold handle_forward_event
  split <;> (dsimp only; split) <;> first | assumption | rfl

theorem hfe_fwd_pending_of_scheduled (en : Bool) (iv t : ℚ) (e : ForwardEvent)
    (s : CoordState) (h : s.fwd_update_scheduled = true) :
    (handle_forward_event en iv t e s).fwd_pending = s.fwd_pending := by
  unfold handle_forward_event
  split <;> (dsimp only; rw [if_pos h])

theorem hfe_fwd_pending_of_not_scheduled (en : Bool) (iv t : ℚ)
    (e : ForwardEvent) (s : CoordState) (h : s.fwd_update_scheduled = false) :
    (handle_forward_event en iv t e s).fwd_pending =
      s.fwd_pending ++ [t + iv] := by
  unfold handle_forward_event
  split <;> (dsimp only; rw [if_neg (by rw [h]; simp)])

theorem fire_nil (s : CoordState) (hp : s.fwd_pending = []) :
    fwd_update_fire s = s := by
  unfold fwd_update_fire
  rw [hp]

/-- Balance-side effect of a forward flush: the flush body calls the
mark-dirty (line 250), which spawns a fresh `_perform_update` task exactly
when the flag is clear and touches nothing when it is set; the flag itself is
unchanged (the spawned task sets it when it first runs). -/
theorem fire_bal (s : CoordState) (tf : ℚ) (rest : List ℚ)
    (hp : s.fwd_pending = tf :: rest) :
    (fwd_update_fire s).wallet_balance_update_scheduled =
      s.wallet_balance_update_scheduled ∧
    (s.wallet_balance_update_scheduled = true →
      (fwd_update_fire s).bal_tasks = s.bal_tasks) ∧
    (s.wallet_balance_update_scheduled = false →
      (fwd_update_fire s).bal_tasks = s.bal_tasks ++ [.created tf]) := by
  unfold fwd_update_fire
  rw [hp]
  dsimp only
  refine ⟨?_, ?_, ?_⟩
  · split <;> simp
  · intro hw
    split <;> simp [schedule_wallet_balance_update, hw]
  · intro hw
    split <;> simp [schedule_wallet_balance_update, hw]

/-- Transitions that do not touch the forward flag or its pending list
preserve the single-flight invariant. -/
theorem singleFlightInv_of_fwd_preserved {s s2 : CoordState}
    (h : SingleFlightInv s)
    (h1 : s2.fwd_update_scheduled = s.fwd_update_scheduled)
    (h2 : s2.fwd_pending = s.fwd_pending) : SingleFlightInv s2 := by
  obtain ⟨hf, hfl⟩ := h
  constructor
  · intro hx
    rw [h2]
    exact hf (by rw [← h1]; exact hx)
  · rw [h2]
    exact hfl

theorem singleFlightInv_applyStep (enable_fwd : Bool) (interval : ℚ)
    (st : CoordStep) (s : CoordState) (h : SingleFlightInv s) :
    SingleFlightInv (applyStep enable_fwd interval st s) := by
  obtain ⟨hf, hfl⟩ := h
  cases st with
  | forwardEvent t e =>
    simp only [applyStep]
    constructor
    · intro hx
      simp at hx
    · by_cases hs : s.fwd_update_scheduled = true
      · rw [hfe_fwd_pending_of_scheduled _ _ _ _ _ hs]
        exact hfl
      · have hs2 : s.fwd_update_scheduled = false := by
          cases hx : s.fwd_update_scheduled
          · rfl
          · exact absurd hx hs
        rw [hfe_fwd_pending_of_not_scheduled _ _ _ _ _ hs2, hf hs2]
        simp
  | forwardFlushFire =>
    simp only [applyStep]
    rcases hp : s.fwd_pending with _ | ⟨tf, rest⟩
    · rw [fire_nil s hp]
      exact ⟨hf, hfl⟩
    · have hrest : rest = [] := by
        rw [hp] at hfl
        simpa using List.eq_nil_of_length_eq_zero (by simpa using hfl)
      obtain ⟨hpd, hfd⟩ := fire_pop s tf rest hp
      constructor
      · intro hx
        rw [hpd, hrest]
      · rw [hpd, hrest]
        simp
  | invoiceEvent t i =>
    simp only [applyStep]
    exact singleFlightInv_of_fwd_preserved ⟨hf, hfl⟩
      (by simp [handle_invoice]) (by simp [handle_invoice])
  | paymentSent t =>
    simp only [applyStep]
    exact singleFlightInv_of_fwd_preserved ⟨hf, hfl⟩ (by simp) (by simp)
  | balTaskStep k now wb =>
    simp only [applyStep]
    exact singleFlightInv_of_fwd_preserved ⟨hf, hfl⟩ (by simp) (by simp)

theorem singleFlightInv_runSteps (enable_fwd : Bool) (interval : ℚ)
    (l : List CoordStep) : SingleFlightInv (runSteps enable_fwd interval l) := by
  have init : SingleFlightInv initCoordState :=
    ⟨fun _ => rfl, by simp [initCoordState]⟩
  rw [runSteps]
  generalize initCoordState = s at init ⊢
  induction l generalizing s with
  | nil => exact init
  | cons st rest ih =>
    exact ih _ (singleFlightInv_applyStep enable_fwd interval st s init)

/-- Counterexample to claim C2 as stated: two mark-dirty producers ready in
one scheduler batch — an invoice event (line 229) followed by a completed
payment (line 130), before the spawned `_perform_update` has had a turn to
run and set the flag (line 271) — both observe
`_wallet_balance_update_scheduled` still false and both call
`loop.create_task`: two pending delayed balance-refresh tasks coexist, so
"at most one pending delayed task per single-flight flag" fails. -/
theorem c2_counterexample :
    (runSteps true 2
      [CoordStep.invoiceEvent 0 sampleInvoice,
       CoordStep.paymentSent 0]).bal_tasks.length = 2 := rfl

/-- Claim C2 (amended): in every reachable coordinator state at most one
forward-flush task is pending; invoking the balance mark-dirty operation
while its flag is already set spawns no task and changes nothing, and a
mark-dirty with the flag clear spawns exactly one refresh task per call.
The original per-flag bound fails for the balance flag: it is set only when
the spawned `_perform_update` first runs (line 271), not at `create_task`
time, so mark-dirty calls arriving before that turn each spawn a task. -/
theorem c2_single_flight (enable_fwd : Bool) (interval t t2 : ℚ)
    (steps : List CoordStep) (s s2 : CoordState)
    (h : s.wallet_balance_update_scheduled = true)
    (h2 : s2.wallet_balance_update_scheduled = false) :
    (runSteps enable_fwd interval steps).fwd_pending.length ≤ 1 ∧
    schedule_wallet_balance_update t s = s ∧
    schedule_wallet_balance_update t2 s2 =
      { s2 with bal_tasks := s2.bal_tasks ++ [.created t2] } :=
  ⟨(singleFlightInv_runSteps enable_fwd interval steps).2,
   swbu_noop_of_flag t s h,
   by rw [schedule_wallet_balance_update, if_neg (by simp [h2])]⟩

theorem c2_single_flight_witness :
    (runSteps true 2
        [CoordStep.forwardEvent 0 sampleFwd,
         CoordStep.invoiceEvent 0 sampleInvoice,
         CoordStep.paymentSent 1,
         CoordStep.forwardFlushFire,
         CoordStep.balTaskStep 0 1 sampleBalance]).fwd_pending.length ≤ 1 ∧
    schedule_wallet_balance_update 0 balScheduledState = balScheduledState ∧
    schedule_wallet_balance_update 1 initCoordState =
      { initCoordState with
        bal_tasks := initCoordState.bal_tasks ++ [.created 1] } :=
  c2_single_flight true 2 0 1
    [CoordStep.forwardEvent 0 sampleFwd,
     CoordStep.invoiceEvent 0 sampleInvoice,
     CoordStep.paymentSent 1,
     CoordStep.forwardFlushFire,
     CoordStep.balTaskStep 0 1 sampleBalance]
    balScheduledState initCoordState rfl rfl

/-! ## Claim C8: the invoice relay -/

theorem run_invoice_pubs (evs : List (ℚ × Invoice)) (s : CoordState) :
    (run_invoice_listener evs s).sse_invoice_status =
      s.sse_invoice_status ++ evs.map Prod.snd := by
  induction evs generalizing s with
  | nil => simp [run_invoice_listener]
  | cons p rest ih =>
    obtain ⟨t, i⟩ := p
    rw [run_invoice_listener, ih]
    simp [handle_invoice]

/-- Once a refresh is pending (a live `_perform_update` task exists, or one
has already set the flag), the invoice relay keeps it pending. -/
theorem run_invoice_refresh_pending (evs : List (ℚ × Invoice)) (s : CoordState)
    (h : s.bal_tasks ≠ [] ∨ s.wallet_balance_update_scheduled = true) :
    (run_invoice_listener evs s).bal_tasks ≠ [] ∨
      (run_invoice_listener evs s).wallet_balance_update_scheduled = true := by
  induction evs generalizing s with
  | nil => simpa [run_invoice_listener] using h
  | cons p rest ih =>
    obtain ⟨t, i⟩ := p
    rw [run_invoice_listener]
    apply ih
    rcases h with h | h
    · left
      simp only [handle_invoice]
      rw [schedule_wallet_balance_update]
      split
      · simpa using h
      · simp
    · right
      simp [handle_invoice, h]

/-- Claim C8: the invoice relay publishes every delivered event immediately,
unconditionally (no equality suppression — duplicates included) and
unmodified, in delivery order; each event is first published and then signals
the single-flight debounced wallet-balance refresh, so after any nonempty
delivery a refresh task is live or its flag is set. -/
theorem c8_invoice_relay (evs : List (ℚ × Invoice)) (t : ℚ) (i : Invoice)
    (s s0 : CoordState) (h : evs ≠ []) :
    (run_invoice_listener evs s).sse_invoice_status =
      s.sse_invoice_status ++ evs.map Prod.snd ∧
    handle_invoice t i s0 =
      schedule_wallet_balance_update t
        { s0 with sse_invoice_status := s0.sse_invoice_status ++ [i] } ∧
    ((run_invoice_listener evs s).bal_tasks ≠ [] ∨
      (run_invoice_listener evs s).wallet_balance_update_scheduled = true) := by
  refine ⟨run_invoice_pubs evs s, rfl, ?_⟩
  rcases evs with _ | ⟨⟨t1, i1⟩, rest⟩
  · exact absurd rfl h
  · rw [run_invoice_listener]
    apply run_invoice_refresh_pending
    by_cases hw : s.wallet_balance_update_scheduled = true
    · exact Or.inr (by simp [handle_invoice, hw])
    · have hw2 : s.wallet_balance_update_scheduled = false := by
        cases hx : s.wallet_balance_update_scheduled
        · rfl
        · exact absurd hx hw
      refine Or.inl ?_
      simp only [handle_invoice]
      rw [swbu_bal_tasks_of_flag _ _ (by simpa using hw2)]
      simp

theorem c8_invoice_relay_witness :
    (run_invoice_listener [(0, sampleInvoice), (1, sampleInvoice)]
        initCoordState).sse_invoice_status =
      initCoordState.sse_invoice_status ++
        ([((0 : ℚ), sampleInvoice), (1, sampleInvoice)].map Prod.snd) ∧
    handle_invoice 0 sampleInvoice initCoordState =
      schedule_wallet_balance_update 0
        { initCoordState with
          sse_invoice_status :=
            initCoordState.sse_invoice_status ++ [sampleInvoice] } ∧
    ((run_invoice_listener [(0, sampleInvoice), (1, sampleInvoice)]
        initCoordState).bal_tasks ≠ [] ∨
      (run_invoice_listener [(0, sampleInvoice), (1, sampleInvoice)]
        initCoordState).wallet_balance_update_scheduled = true) :=
  c8_invoice_relay [(0, sampleInvoice), (1, sampleInvoice)] 0 sampleInvoice
    initCoordState initCoordState (by simp)

/-! ## Claim C1: coalescing within one flush window -/

/-- Absorbing arrivals: while a flush is pending and every remaining arrival
happens strictly before the pending expiry, each arrival only appends to the
buffer. -/
theorem run_timeline_absorb (interval tf : ℚ) (evs : List (ℚ × ForwardEvent))
    (s : CoordState) (hp : s.fwd_pending = [tf])
    (hs : s.fwd_update_scheduled = true)
    (hlt : ∀ p ∈ evs, p.1 < tf) :
    run_forward_timeline true interval evs s =
      run_forward_timeline true interval []
        { s with fwd_successes := s.fwd_successes ++ evs.map Prod.snd } := by
  induction evs generalizing s with
  | nil => simp
  | cons p rest ih =>
    obtain ⟨t, e⟩ := p
    have hnle : ¬ tf ≤ t := not_le.mpr (hlt (t, e) (List.mem_cons_self _ _))
    have hpre : timeline_prestep t s = s := by
      unfold timeline_prestep
      rw [hp]
      exact if_neg hnle
    have habs : handle_forward_event true interval t e s =
        { s with fwd_successes := s.fwd_successes ++ [e] } := by
      simp [handle_forward_event, hs]
    have hmid : run_forward_timeline true interval ((t, e) :: rest) s =
        run_forward_timeline true interval rest
          { s with fwd_successes := s.fwd_successes ++ [e] } := by
      rw [run_forward_timeline, hpre, habs]
    rw [hmid,
      ih { s with fwd_successes := s.fwd_successes ++ [e] } (by simp [hp])
        (by simp [hs]) (fun q hq => hlt q (List.mem_cons_of_mem _ hq))]
    simp [List.append_assoc]

theorem run_nil_single (interval tf : ℚ) (s : CoordState)
    (hp : s.fwd_pending = [tf]) :
    run_forward_timeline true interval [] s = fwd_update_fire s := by
  rw [run_forward_timeline, hp]
  show drain_fwd 1 s = fwd_update_fire s
  rw [drain_fwd, hp]
  rfl

theorem fire_batch_pub (s : CoordState) (tf : ℚ) (prest : List ℚ)
    (hp : s.fwd_pending = tf :: prest) (hne : s.fwd_successes ≠ []) :
    (fwd_update_fire s).sse_forward_batches =
      s.sse_forward_batches ++ [s.fwd_successes] ∧
    (fwd_update_fire s).fwd_successes = [] := by
  unfold fwd_update_fire
  rw [hp]
  dsimp only
  rw [if_neg (by simpa using hne)]
  exact ⟨by simp, by simp⟩

theorem fire_batch_empty (s : CoordState) (tf : ℚ) (prest : List ℚ)
    (hp : s.fwd_pending = tf :: prest) (he : s.fwd_successes = []) :
    (fwd_update_fire s).sse_forward_batches = s.sse_forward_batches ∧
    (fwd_update_fire s).fwd_successes = [] := by
  unfold fwd_update_fire
  rw [hp]
  dsimp only
  rw [if_pos (by simp [he])]
  exact ⟨by simp, by simpa using he⟩

theorem fire_revenue (s : CoordState) (tf : ℚ) (prest : List ℚ)
    (hp : s.fwd_pending = tf :: prest) :
    (fwd_update_fire s).sse_fee_revenue_count =
      s.sse_fee_revenue_count + 1 := by
  unfold fwd_update_fire
  rw [hp]
  dsimp only
  split <;> simp

/-- Claim C1: when N ≥ 1 forward events all arrive strictly within the flush
window opened by the first arrival (window length `FWD_GATHER_INTERVAL`,
started at the first arrival) and forward-batch notifications are enabled,
the run publishes exactly one forward batch, containing all N events in
arrival order, and exactly one fee-revenue snapshot; no further batch fires
after the window from those same events. -/
theorem c1_forward_batch_window (interval t1 : ℚ) (e1 : ForwardEvent)
    (rest : List (ℚ × ForwardEvent))
    (hwin : ∀ p ∈ rest, t1 ≤ p.1 ∧ p.1 < t1 + interval) :
    (run_forward_timeline true interval ((t1, e1) :: rest)
        initCoordState).sse_forward_batches = [e1 :: rest.map Prod.snd] ∧
    (run_forward_timeline true interval ((t1, e1) :: rest)
        initCoordState).sse_fee_revenue_count = 1 := by
  have h1 : run_forward_timeline true interval ((t1, e1) :: rest)
      initCoordState =
      run_forward_timeline true interval rest
        { initCoordState with
          fwd_update_scheduled := true
          fwd_pending := [t1 + interval]
          fwd_successes := [e1] } := rfl
  have h2 := run_timeline_absorb interval (t1 + interval) rest
      { initCoordState with
        fwd_update_scheduled := true
        fwd_pending := [t1 + interval]
        fwd_successes := [e1] }
      rfl rfl (fun p hp => (hwin p hp).2)
  rw [h1, h2, run_nil_single interval (t1 + interval) _ rfl]
  constructor
  · rw [(fire_batch_pub _ (t1 + interval) [] rfl (by simp)).1]
    simp [initCoordState]
  · rw [fire_revenue _ (t1 + interval) [] rfl]
    simp [initCoordState]

theorem c1_forward_batch_window_witness :
    (run_forward_timeline true 2 [(0, sampleFwd), (1, sampleFwd2)]
        initCoordState).sse_forward_batches = [[sampleFwd, sampleFwd2]] ∧
    (run_forward_timeline true 2 [(0, sampleFwd), (1, sampleFwd2)]
        initCoordState).sse_fee_revenue_count = 1 :=
  c1_forward_batch_window 2 0 sampleFwd [((1 : ℚ), sampleFwd2)]
    (by
      intro p hp
      simp only [List.mem_singleton] at hp
      subst hp
      constructor <;> norm_num)

/-! ## Claim C4: flush-cycle structure and disabled notifications -/

theorem hfe_disabled_buffer (iv t : ℚ) (e : ForwardEvent) (s : CoordState) :
    (handle_forward_event false iv t e s).fwd_successes = s.fwd_successes := by
  unfold handle_forward_event
  split
  case isTrue h => simp at h
  case isFalse h =>
    dsimp only
    split <;> rfl

theorem drain_no_batch (n : Nat) (s : CoordState) (he : s.fwd_successes = []) :
    (drain_fwd n s).sse_forward_batches = s.sse_forward_batches ∧
    (drain_fwd n s).fwd_successes = [] := by
  induction n generalizing s with
  | zero => exact ⟨rfl, he⟩
  | succ n ih =>
    rcases hp : s.fwd_pending with _ | ⟨tf, prest⟩
    · rw [drain_fwd, hp]
      exact ⟨rfl, he⟩
    · rw [drain_fwd, hp]
      dsimp only
      obtain ⟨h1, h2⟩ := fire_batch_empty s tf prest hp he
      obtain ⟨h3, h4⟩ := ih (fwd_update_fire s) h2
      exact ⟨h3.trans h1, h4⟩

theorem run_timeline_disabled_no_batch (iv : ℚ)
    (evs : List (ℚ × ForwardEvent)) (s : CoordState)
    (he : s.fwd_successes = []) :
    (run_forward_timeline false iv evs s).sse_forward_batches =
      s.sse_forward_batches ∧
    (run_forward_timeline false iv evs s).fwd_successes = [] := by
  induction evs generalizing s with
  | nil => exact drain_no_batch _ s he
  | cons p rest ih =>
    obtain ⟨t, e⟩ := p
    rw [run_forward_timeline]
    rcases hp : s.fwd_pending with _ | ⟨tf, prest⟩
    · have hpre : timeline_prestep t s = s := by
        unfold timeline_prestep
        rw [hp]
      rw [hpre]
      obtain ⟨h1, h2⟩ := ih (handle_forward_event false iv t e s)
        (by rw [hfe_disabled_buffer]; exact he)
      exact ⟨h1.trans (hfe_sse_forward_batches _ _ _ _ _), h2⟩
    · by_cases hle : tf ≤ t
      · have hpre : timeline_prestep t s = fwd_update_fire s := by
          unfold timeline_prestep
          rw [hp]
          exact if_pos hle
        rw [hpre]
        obtain ⟨hf1, hf2⟩ := fire_batch_empty s tf prest hp he
        obtain ⟨h1, h2⟩ := ih
          (handle_forward_event false iv t e (fwd_update_fire s))
          (by rw [hfe_disabled_buffer]; exact hf2)
        refine ⟨?_, h2⟩
        rw [h1, hfe_sse_forward_batches, hf1]
      · have hpre : timeline_prestep t s = s := by
          unfold timeline_prestep
          rw [hp]
          exact if_neg hle
        rw [hpre]
        obtain ⟨h1, h2⟩ := ih (handle_forward_event false iv t e s)
          (by rw [hfe_disabled_buffer]; exact he)
        exact ⟨h1.trans (hfe_sse_forward_batches _ _ _ _ _), h2⟩

theorem drain_revenue (n : Nat) (s : CoordState)
    (hn : s.fwd_pending.length ≤ n) :
    (drain_fwd n s).sse_fee_revenue_count =
      s.sse_fee_revenue_count + s.fwd_pending.length := by
  induction n generalizing s with
  | zero =>
    have h0 : s.fwd_pending = [] :=
      List.eq_nil_of_length_eq_zero (Nat.le_zero.mp hn)
    simp [drain_fwd, h0]
  | succ n ih =>
    rcases hp : s.fwd_pending with _ | ⟨tf, prest⟩
    · rw [drain_fwd, hp]
      simp [hp]
    · rw [drain_fwd, hp]
      dsimp only
      obtain ⟨hpd, -⟩ := fire_pop s tf prest hp
      have hrev := fire_revenue s tf prest hp
      have hlen : (fwd_update_fire s).fwd_pending.length ≤ n := by
        rw [hpd]
        rw [hp] at hn
        simpa using Nat.le_of_succ_le_succ (by simpa using hn)
      rw [ih (fwd_update_fire s) hlen, hpd, hrev]
      simp only [List.length_cons]
      omega

theorem hfe_pending_ge (en : Bool) (iv t : ℚ) (e : ForwardEvent)
    (x : CoordState) :
    x.fwd_pending.length ≤ (handle_forward_event en iv t e x).fwd_pending.length := by
  by_cases hs : x.fwd_update_scheduled = true
  · rw [hfe_fwd_pending_of_scheduled _ _ _ _ _ hs]
  · have hs' : x.fwd_update_scheduled = false := by
      cases hx : x.fwd_update_scheduled
      · rfl
      · exact absurd hx hs
    rw [hfe_fwd_pending_of_not_scheduled _ _ _ _ _ hs']
    simp

theorem run_timeline_revenue_ge (en : Bool) (iv : ℚ)
    (evs : List (ℚ × ForwardEvent)) (s : CoordState) :
    s.sse_fee_revenue_count + s.fwd_pending.length ≤
      (run_forward_timeline en iv evs s).sse_fee_revenue_count := by
  induction evs generalizing s with
  | nil =>
    rw [run_forward_timeline, drain_revenue s.fwd_pending.length s (le_refl _)]
  | cons p rest ih =>
    obtain ⟨t, e⟩ := p
    rw [run_forward_timeline]
    rcases hp : s.fwd_pending with _ | ⟨tf, prest⟩
    · have hpre : timeline_prestep t s = s := by
        unfold timeline_prestep
        rw [hp]
      rw [hpre]
      have ihh := ih (handle_forward_event en iv t e s)
      have hrev : (handle_forward_event en iv t e s).sse_fee_revenue_count =
          s.sse_fee_revenue_count := hfe_sse_fee_revenue_count _ _ _ _ _
      simp only [List.length_nil]
      omega
    · by_cases hle : tf ≤ t
      · have hpre : timeline_prestep t s = fwd_update_fire s := by
          unfold timeline_prestep
          rw [hp]
          exact if_pos hle
        rw [hpre]
        have ihh := ih (handle_forward_event en iv t e (fwd_update_fire s))
        have hrev1 := fire_revenue s tf prest hp
        obtain ⟨hpd, -⟩ := fire_pop s tf prest hp
        have hrev2 : (handle_forward_event en iv t e
            (fwd_update_fire s)).sse_fee_revenue_count =
            (fwd_update_fire s).sse_fee_revenue_count :=
          hfe_sse_fee_revenue_count _ _ _ _ _
        have hge := hfe_pending_ge en iv t e (fwd_update_fire s)
        have hl1 : (fwd_update_fire s).fwd_pending.length = prest.length := by
          rw [hpd]
        simp only [List.length_cons]
        omega
      · have hpre : timeline_prestep t s = s := by
          unfold timeline_prestep
          rw [hp]
          exact if_neg hle
        rw [hpre]
        have ihh := ih (handle_forward_event en iv t e s)
        have hrev : (handle_forward_event en iv t e s).sse_fee_revenue_count =
            s.sse_fee_revenue_count := hfe_sse_fee_revenue_count _ _ _ _ _
        have hge := hfe_pending_ge en iv t e s
        rw [hp] at hge
        omega

/-- Claim C4: a flush cycle publishes a forward batch exactly when the buffer
is non-empty at flush time, while the fee-revenue publish and the
balance-refresh signal happen on every flush cycle regardless; with
forward-batch notifications disabled, arriving forward events are never
appended to the buffer yet still schedule flush cycles, so no batch is ever
published while fee revenue is still driven. -/
theorem c4_flush_cycle (s : CoordState) (tf : ℚ) (prest : List ℚ)
    (hp : s.fwd_pending = tf :: prest)
    (interval t t1 : ℚ) (e e1 : ForwardEvent) (s2 : CoordState)
    (evs : List (ℚ × ForwardEvent)) :
    (s.fwd_successes = [] →
      (fwd_update_fire s).sse_forward_batches = s.sse_forward_batches) ∧
    (s.fwd_successes ≠ [] →
      (fwd_update_fire s).sse_forward_batches =
        s.sse_forward_batches ++ [s.fwd_successes]) ∧
    (fwd_update_fire s).sse_fee_revenue_count =
      s.sse_fee_revenue_count + 1 ∧
    (s.wallet_balance_update_scheduled = false →
      (fwd_update_fire s).bal_tasks = s.bal_tasks ++ [BalTask.created tf]) ∧
    (handle_forward_event false interval t e s2).fwd_successes =
      s2.fwd_successes ∧
    (s2.fwd_update_scheduled = false →
      (handle_forward_event false interval t e s2).fwd_pending =
        s2.fwd_pending ++ [t + interval]) ∧
    (run_forward_timeline false interval evs
        initCoordState).sse_forward_batches = [] ∧
    1 ≤ (run_forward_timeline false interval ((t1, e1) :: evs)
        initCoordState).sse_fee_revenue_count := by
  refine ⟨fun he => (fire_batch_empty s tf prest hp he).1,
    fun hne => (fire_batch_pub s tf prest hp hne).1,
    fire_revenue s tf prest hp,
    (fire_bal s tf prest hp).2.2,
    hfe_disabled_buffer interval t e s2,
    hfe_fwd_pending_of_not_scheduled false interval t e s2,
    ?_, ?_⟩
  · exact (run_timeline_disabled_no_batch interval evs initCoordState rfl).1
  · have h1 : run_forward_timeline false interval ((t1, e1) :: evs)
        initCoordState =
        run_forward_timeline false interval evs
          { initCoordState with
            fwd_update_scheduled := true
            fwd_pending := [t1 + interval] } := rfl
    rw [h1]
    have h2 := run_timeline_revenue_ge false interval evs
        { initCoordState with
          fwd_update_scheduled := true
          fwd_pending := [t1 + interval] }
    simpa [initCoordState] using h2

theorem c4_flush_cycle_witness :
    (fwd_update_fire pendingEmptyBufState).sse_forward_batches =
      pendingEmptyBufState.sse_forward_batches ∧
    (fwd_update_fire pendingFullBufState).sse_forward_batches =
      pendingFullBufState.sse_forward_batches ++
        [pendingFullBufState.fwd_successes] ∧
    (fwd_update_fire pendingFullBufState).sse_fee_revenue_count =
      pendingFullBufState.sse_fee_revenue_count + 1 ∧
    (fwd_update_fire pendingFullBufState).bal_tasks =
      pendingFullBufState.bal_tasks ++ [BalTask.created 0] ∧
    (handle_forward_event false 2 0 sampleFwd initCoordState).fwd_successes =
      initCoordState.fwd_successes ∧
    (handle_forward_event false 2 0 sampleFwd initCoordState).fwd_pending =
      initCoordState.fwd_pending ++ [0 + 2] ∧
    (run_forward_timeline false 2 ([] : List (ℚ × ForwardEvent))
        initCoordState).sse_forward_batches = [] ∧
    1 ≤ (run_forward_timeline false 2 [((0 : ℚ), sampleFwd)]
        initCoordState).sse_fee_revenue_count := by
  have hA := c4_flush_cycle pendingEmptyBufState 0 [] rfl 2 0 0 sampleFwd
    sampleFwd initCoordState []
  have hB := c4_flush_cycle pendingFullBufState 0 [] rfl 2 0 0 sampleFwd
    sampleFwd initCoordState []
  exact ⟨hA.1 rfl, hB.2.1 (by simp [pendingFullBufState, pendingEmptyBufState]),
    hB.2.2.1, hB.2.2.2.1 rfl, hB.2.2.2.2.1, hB.2.2.2.2.2.1 rfl,
    hB.2.2.2.2.2.2.1, hB.2.2.2.2.2.2.2⟩

end Blitz
